import Mathlib

/-!
Shallow embedding of the HeroesNeverDice browser client
(src/static/js/dungeon.js and the inventory controller in
src/unnamed/part_000), together with theorems settling the
specification claims about it.

Conventions of the embedding:
* the jQuery log element #log is modelled as a list of its lines, in
  insertion order; appending the string t followed by a newline to the
  element's html corresponds to appending the single line t to the list;
* an XMLHttpRequest that has been sent is recorded in the order it was
  issued (method, url, optional body); the in-flight set at any point is
  the suffix of recorded requests whose onload has not yet run;
* each onload callback is a pure function from the response
  (status, responseText) and the pre-existing page state to the new page
  state; a JavaScript exception thrown inside a callback aborts the rest
  of the callback but keeps the mutations already performed, so such a
  handler returns the state at the abort point plus a Boolean flag
  recording that it threw.
-/

namespace HeroesNeverDice

/-! ### Tile palette and map renderer (dungeon.js, displayMap, lines 5-33) -/

/-- The tileClasses object literal of displayMap maps the tile codes
0..5 to their css class names.  For any other code the JavaScript
property lookup tileClasses[code] yields the value undefined, and
td.classList.add stringifies that value to the token "undefined"
(a valid class token, so no exception is thrown). -/
def classify (code : Int) : String :=
  if code = 0 then "unexplored"
  else if code = 1 then "explored"
  else if code = 2 then "blocked"
  else if code = 3 then "entrance"
  else if code = 4 then "exit"
  else if code = 5 then "player"
  else "undefined"

/-- displayMap(mapData): clears the #map-table element (innerHTML = ''),
then for each row of mapData builds a table row, and for each entry of
that row a cell carrying the class classify of the entry.  The first
argument is the previous contents of the table element, discarded by the
clearing step; the result is the new contents, one list of cell classes
per row. -/
def displayMap (_table : List (List String)) (mapData : List (List Int)) :
    List (List String) :=
  mapData.map (fun row => row.map classify)

/-! ### Claims C7, C8, C9 -/

/-- C7 counterexample: the claim says that for an integer outside
\x7b0..5\x7d classify falls back to the kind "unknown"; at code 6 the
fallback class is in fact "undefined", so the claim is false. -/
theorem classify_fallback_not_unknown_cex :
    ¬ (classify 6 = "unknown") := by decide

/-- C7 (amended): for each tile code in \x7b0..5\x7d classify returns the
documented kind (unexplored, explored, blocked, entrance, exit, player),
and for every integer outside \x7b0..5\x7d it falls back to the class
"undefined" (the stringified failed lookup) and never throws — the
embedding is a total function. -/
theorem classify_documented_kinds_and_fallback (c : Int)
    (h : c < 0 ∨ 5 < c) :
    classify 0 = "unexplored" ∧ classify 1 = "explored" ∧
    classify 2 = "blocked" ∧ classify 3 = "entrance" ∧
    classify 4 = "exit" ∧ classify 5 = "player" ∧
    classify c = "undefined" := by
  refine ⟨by decide, by decide, by decide, by decide, by decide, by decide, ?_⟩
  unfold classify
  rw [if_neg (by omega), if_neg (by omega), if_neg (by omega),
    if_neg (by omega), if_neg (by omega), if_neg (by omega)]

/-- C7 witness: the fallback theorem applied at the concrete code 6. -/
theorem classify_documented_kinds_and_fallback_witness :
    ((6 : Int) < 0 ∨ 5 < (6 : Int)) ∧ classify 6 = "undefined" :=
  ⟨Or.inr (by decide),
    (classify_documented_kinds_and_fallback 6 (Or.inr (by decide))).2.2.2.2.2.2⟩

/-- C8: on a rectangular N times M grid, displayMap produces exactly N
rendered rows of exactly M cells each, and rendering is idempotent:
because the table is cleared before rendering, re-rendering the same map
over the previously rendered table yields the identical structure. -/
theorem displayMap_rectangular (table : List (List String))
    (m : List (List Int)) (N M : Nat)
    (hN : m.length = N) (hM : ∀ row ∈ m, row.length = M) :
    (displayMap table m).length = N ∧
    (∀ row ∈ displayMap table m, row.length = M) ∧
    displayMap (displayMap table m) m = displayMap table m := by
  refine ⟨by simpa [displayMap] using hN, ?_, rfl⟩
  intro row hrow
  simp only [displayMap, List.mem_map] at hrow
  obtain ⟨r, hr, rfl⟩ := hrow
  simpa using hM r hr

/-- C8 witness: the rectangularity theorem applied to the concrete
2 times 2 grid [[0,1],[2,5]] over an empty previous table. -/
theorem displayMap_rectangular_witness :
    (([[0, 1], [2, 5]] : List (List Int)).length = 2 ∧
      (∀ row ∈ ([[0, 1], [2, 5]] : List (List Int)), row.length = 2)) ∧
    ((displayMap [] [[0, 1], [2, 5]]).length = 2 ∧
      (∀ row ∈ displayMap [] [[0, 1], [2, 5]], row.length = 2) ∧
      displayMap (displayMap [] [[0, 1], [2, 5]]) [[0, 1], [2, 5]] =
        displayMap [] [[0, 1], [2, 5]]) :=
  ⟨⟨by decide, by decide⟩,
    displayMap_rectangular [] [[0, 1], [2, 5]] 2 2 (by decide) (by decide)⟩

/-- C9: displayMap is total on degenerate input: for every map,
including the empty map and maps with ragged rows, it produces one
rendered row per input row with one cell per input cell (the per-row
loop bound is that row's own length), and the embedding is a total
function, so no input makes it throw. -/
theorem displayMap_total_row_lengths (table : List (List String))
    (m : List (List Int)) :
    (displayMap table m).length = m.length ∧
    (displayMap table m).map List.length = m.map List.length := by
  constructor
  · simp [displayMap]
  · simp [displayMap, List.map_map, Function.comp]

/-! ### Network requests and page state (dungeon.js, lines 35-70) -/

/-- One XMLHttpRequest as issued by open/send: method, url and the
optional body passed to send. -/
structure Request where
  method : String
  url : String
  body : Option String
deriving DecidableEq, Repr

/-- The page state touched by the dungeon scripts: the lines of the #log
element in insertion order, the numLines counter (dungeon.js line 48),
the sequence of requests sent so far (oldest first), and the value last
assigned to window.location.href, if any. -/
structure DungeonState where
  log : List String
  numLines : Nat
  sent : List Request
  locationHref : Option String
deriving DecidableEq, Repr

/-- The page state right after load: empty log, numLines = 0, nothing
sent, no navigation performed. -/
def initialState : DungeonState :=
  { log := [], numLines := 0, sent := [], locationHref := none }

/-- dungeon.js line 47. -/
def MAX_LOG_SIZE : Nat := 20

/-- The GET /dungeon request issued by getdungeon (lines 37-39, 45). -/
def getdungeonRequest : Request :=
  { method := "GET", url := "/dungeon", body := none }

/-- getdungeon(): sends GET /dungeon; its own onload re-renders the map
(see getdungeonOnload). -/
def getdungeon (s : DungeonState) : DungeonState :=
  { s with sent := s.sent ++ [getdungeonRequest] }

/-- The onload of getdungeon (lines 40-44): on status 200 parses the
response as a grid of tile codes and re-renders the whole table via
displayMap; on any other status leaves the table alone. -/
def getdungeonOnload (status : Nat) (mapData : List (List Int))
    (table : List (List String)) : List (List String) :=
  if status = 200 then displayMap table mapData else table

/-- Number of fresh map fetches recorded in the sent list. -/
def dungeonFetches (s : DungeonState) : Nat :=
  (s.sent.filter (fun r => r == getdungeonRequest)).length

/-- The PUT /dungeon/move request of movedungeon (lines 50-52, 69); the
direction token is the raw request body. -/
def moveRequest (direction : String) : Request :=
  { method := "PUT", url := "/dungeon/move", body := some direction }

/-- movedungeon(direction) up to its suspension point: opens and sends
PUT /dungeon/move with the direction as body.  There is no guard of any
kind: the function neither inspects nor records whether another request
is still in flight. -/
def movedungeon (direction : String) (s : DungeonState) : DungeonState :=
  { s with sent := s.sent ++ [moveRequest direction] }

/-- The onload of movedungeon (lines 53-68).  On status 200 it appends
the response text to #log, increments numLines, calls getdungeon(), and
then, when numLines exceeds MAX_LOG_SIZE, enters the trimming branch
(lines 58-63).  Line 60 of that branch reads the identifier numlines,
which is defined nowhere in the source (the counter is spelled
numLines): in JavaScript evaluating it throws a ReferenceError, so the
trim never completes and the handler aborts there, after the append, the
increment and the fetch have already happened.  The returned flag is
true exactly when the handler threw this way.  On status 302 it assigns
the response text to window.location.href.  Any other status is
ignored. -/
def movedungeonOnload (status : Nat) (responseText : String)
    (s : DungeonState) : DungeonState × Bool :=
  if status = 200 then
    (getdungeon
        { s with log := s.log ++ [responseText], numLines := s.numLines + 1 },
      decide (s.numLines + 1 > MAX_LOG_SIZE))
  else if status = 302 then
    ({ s with locationHref := some responseText }, false)
  else
    (s, false)

/-- A whole successful move turn: send the move, then process its
status-200 response carrying the given log line. -/
def moveTurn (direction responseText : String) (s : DungeonState) :
    DungeonState :=
  (movedungeonOnload 200 responseText (movedungeon direction s)).1

/-- The page state after n successful move turns starting from the
freshly loaded page, the k-th carrying the log line rendered from k. -/
def logAfterMoves : Nat → DungeonState
  | 0 => initialState
  | n + 1 => moveTurn ("north") (toString n) (logAfterMoves n)

/-! ### Claims C1, C2, C3, C4 -/

/-- C1: evaluation of the code at the failing input.  After 21
consecutive successful moves from the fresh page the #log element holds
21 lines, strictly more than MAX_LOG_SIZE = 20, because the trimming
branch entered on the 21st response throws a ReferenceError on the
undefined identifier numlines before removing anything (the flag of the
21st onload is true).  The spec's eviction invariant (buffer length at
most 20 after any append) is the evident intent and the misspelled
variable a slip, so the claim stands and the code is at fault. -/
theorem log_overflow_on_21st_move :
    (logAfterMoves 21).log.length = 21 ∧
    MAX_LOG_SIZE < (logAfterMoves 21).log.length ∧
    (movedungeonOnload 200 (toString 20)
      (movedungeon ("north") (logAfterMoves 20))).2 = true := by
  refine ⟨by decide, by decide, by decide⟩

/-- C2 counterexample: the claim says a second move call issued while
the first is still awaiting its response is rejected, with no second
request sent; in the code two back-to-back movedungeon calls (no
response processed in between) leave two sent requests, not one. -/
theorem second_move_still_sent_cex :
    ¬ ((movedungeon ("south") (movedungeon ("north") initialState)).sent.length
        = 1) := by decide

/-- C2 (amended): movedungeon has no in-flight guard: a second move call
issued while the first request is still awaiting its response sends a
second network request immediately, so both requests end up issued, in
call order. -/
theorem second_move_sends_second_request (d1 d2 : String)
    (s : DungeonState) :
    (movedungeon d2 (movedungeon d1 s)).sent =
      s.sent ++ [moveRequest d1, moveRequest d2] := by
  simp [movedungeon]

/-- C3: for every direction, processing a status-200 move response with
body t appends exactly one line equal to t to the log and issues exactly
one fresh GET /dungeon fetch: the sent list gains exactly the move
request and then one getdungeon request, so the fetch count rises by
exactly one.  This holds whether or not the broken trimming branch is
entered, since the append and the fetch precede the throw point. -/
theorem move_success_appends_and_refetches (direction t : String)
    (s : DungeonState) :
    (movedungeonOnload 200 t (movedungeon direction s)).1.log =
      s.log ++ [t] ∧
    (movedungeonOnload 200 t (movedungeon direction s)).1.sent =
      s.sent ++ [moveRequest direction, getdungeonRequest] ∧
    dungeonFetches (movedungeonOnload 200 t (movedungeon direction s)).1 =
      dungeonFetches s + 1 := by
  refine ⟨by simp [movedungeonOnload, movedungeon, getdungeon], ?_, ?_⟩
  · simp [movedungeonOnload, movedungeon, getdungeon]
  · simp [movedungeonOnload, movedungeon, getdungeon, dungeonFetches,
      List.filter_append, moveRequest, getdungeonRequest]

/-- C4: for every direction, processing a status-302 move response whose
body is a location string assigns that string to window.location.href
and leaves the log buffer completely unchanged: no line appended, no
counter change, no trim, no exception, and no map fetch issued. -/
theorem move_redirect_navigates_log_unchanged (direction t : String)
    (s : DungeonState) :
    (movedungeonOnload 302 t (movedungeon direction s)).1.locationHref =
      some t ∧
    (movedungeonOnload 302 t (movedungeon direction s)).1.log = s.log ∧
    (movedungeonOnload 302 t (movedungeon direction s)).1.numLines =
      s.numLines ∧
    (movedungeonOnload 302 t (movedungeon direction s)).2 = false ∧
    dungeonFetches (movedungeonOnload 302 t (movedungeon direction s)).1 =
      dungeonFetches s := by
  refine ⟨by simp [movedungeonOnload, movedungeon], ?_, ?_, ?_, ?_⟩
  · simp [movedungeonOnload, movedungeon]
  · simp [movedungeonOnload, movedungeon]
  · simp [movedungeonOnload]
  · simp [movedungeonOnload, movedungeon, dungeonFetches,
      List.filter_append, moveRequest, getdungeonRequest]

/-! ### Combat actions: attack and defend (dungeon.js, lines 72-104) -/

/-- The six dice-count input elements read by attack (lines 74-79).  A
DOM input's value property is always a string, so each field is the
string contents of the corresponding input, in the order the source
reads them: d4, d6, d8, d10, d12, d20. -/
structure DiceInputs where
  d4 : String
  d6 : String
  d8 : String
  d10 : String
  d12 : String
  d20 : String
deriving DecidableEq, Repr

/-- The totalDice array built by the six push calls of attack, in push
order. -/
def totalDice (doc : DiceInputs) : List String :=
  [doc.d4, doc.d6, doc.d8, doc.d10, doc.d12, doc.d20]

/-- Comma-separated join, as JSON.stringify renders the elements of an
array. -/
def joinComma : List String → String
  | [] => ""
  | [x] => x
  | x :: xs => x ++ "," ++ joinComma xs

/-- JSON.stringify applied to an array of JavaScript strings: each
element is rendered as a quoted JSON string (none of the values sent
here contain characters needing escapes). -/
def stringifyStrArray (vals : List String) : String :=
  "[" ++ joinComma (vals.map (fun v => "\"" ++ v ++ "\"")) ++ "]"

/-- JSON.stringify(\x7b"spent_dice" : totalDice\x7d) where totalDice is
an array of strings (line 89): an object with the single field
spent_dice holding the stringified array. -/
def stringifySpentDice (vals : List String) : String :=
  "\x7b\"spent_dice\":" ++ stringifyStrArray vals ++ "\x7d"

/-- The request sent by attack (lines 81-89): PUT /dungeon/attack whose
body is the JSON serialization of the spent_dice object built from the
six input values. -/
def attackRequest (doc : DiceInputs) : Request :=
  { method := "PUT", url := "/dungeon/attack",
    body := some (stringifySpentDice (totalDice doc)) }

/-- attack(): reads the six inputs and sends the attack request. -/
def attack (doc : DiceInputs) (s : DungeonState) : DungeonState :=
  { s with sent := s.sent ++ [attackRequest doc] }

/-- The onload of attack (lines 84-88): on status 200 appends the
response text to #log (without touching numLines and without any trim or
map fetch); any other status is ignored. -/
def attackOnload (status : Nat) (responseText : String) (s : DungeonState) :
    DungeonState :=
  if status = 200 then { s with log := s.log ++ [responseText] } else s

/-- The request sent by defend (lines 95-96, 103): PUT /dungeon/defend
with send() called with no argument at all, hence no request body. -/
def defendRequest : Request :=
  { method := "PUT", url := "/dungeon/defend", body := none }

/-- defend(): sends the bodyless defend request; it reads no dice
inputs. -/
def defend (s : DungeonState) : DungeonState :=
  { s with sent := s.sent ++ [defendRequest] }

/-- The onload of defend (lines 98-102), textually identical to the
onload of attack. -/
def defendOnload (status : Nat) (responseText : String) (s : DungeonState) :
    DungeonState :=
  if status = 200 then { s with log := s.log ++ [responseText] } else s

/-- Modelled from the spec: the wire-contract table of the spec
prescribes a body of shape \x7b"spent_dice": [6 ints]\x7d, the pool
serialized as a JSON array of integers. -/
def specSpentDiceBody (pool : List Nat) : String :=
  "\x7b\"spent_dice\":" ++
    ("[" ++ joinComma (pool.map (fun n => toString n)) ++ "]") ++ "\x7d"

/-- The body the amended claim describes: spent_dice as the JSON array
of the pool's decimal string forms, one quoted string per slot, in pool
order, zero slots included. -/
def spentDiceBodyOfPool (pool : List Nat) : String :=
  "\x7b\"spent_dice\":" ++
    ("[" ++ joinComma (pool.map (fun n => "\"" ++ toString n ++ "\"")) ++ "]")
    ++ "\x7d"

/-! ### Claims C5, C6 -/

/-- C5 counterexample: with the dice pool [1,0,2,0,0,1] in the six
inputs, the body attack sends is the array of quoted strings
["1","0","2","0","0","1"], not the array of integers [1,0,2,0,0,1] the
claim (and the spec's wire contract) prescribes. -/
theorem attack_serializes_strings_cex :
    ¬ ((attackRequest
          { d4 := "1", d6 := "0", d8 := "2", d10 := "0", d12 := "0",
            d20 := "1" }).body =
        some (specSpentDiceBody [1, 0, 2, 0, 0, 1])) := by decide

/-- C5 (amended): for every pool of six non-negative integers shown in
the inputs, attack serializes spent_dice as that exact sequence rendered
as JSON strings (the inputs' value strings), preserving positional order
and zero entries; on a status-200 response it appends the response text
to the log (exactly one new line) and issues no map fetch. -/
theorem attack_serialization_order_preserved
    (p4 p6 p8 p10 p12 p20 : Nat) (t : String) (s : DungeonState) :
    (attackRequest
        { d4 := toString p4, d6 := toString p6, d8 := toString p8,
          d10 := toString p10, d12 := toString p12, d20 := toString p20 }).body
      = some (spentDiceBodyOfPool [p4, p6, p8, p10, p12, p20]) ∧
    (attackOnload 200 t s).log = s.log ++ [t] ∧
    (attackOnload 200 t s).sent = s.sent ∧
    dungeonFetches (attackOnload 200 t s) = dungeonFetches s := by
  refine ⟨?_, by simp [attackOnload], by simp [attackOnload], ?_⟩
  · simp [attackRequest, stringifySpentDice, stringifyStrArray, totalDice,
      spentDiceBodyOfPool, joinComma]
  · simp [attackOnload, dungeonFetches]

/-- C6 counterexample: the claim says defend sends a JSON body carrying
the dice pool, payload presence being mandatory; the code calls send()
with no argument, so the defend request has no body at all — in
particular not the body prescribed for the pool [1,0,2,0,0,1]. -/
theorem defend_sends_no_payload_cex :
    defendRequest.body = none ∧
    ¬ (defendRequest.body = some (specSpentDiceBody [1, 0, 2, 0, 0, 1])) := by
  decide

/-- C6 (amended): defend sends no request body (it reads no dice pool),
and otherwise behaves like attack: its onload is the same function as
attack's, on a status-200 response it appends the response text to the
log without any map fetch, and its request differs from an attack
request in the endpoint path /dungeon/defend and in carrying no
payload. -/
theorem defend_same_handler_no_payload (t : String) (s : DungeonState) :
    defendRequest.method = "PUT" ∧
    defendRequest.url = "/dungeon/defend" ∧
    defendRequest.body = none ∧
    (∀ status u, defendOnload status u s = attackOnload status u s) ∧
    (defendOnload 200 t (defend s)).log = s.log ++ [t] ∧
    dungeonFetches (defendOnload 200 t (defend s)) = dungeonFetches s := by
  refine ⟨rfl, rfl, rfl, fun status u => rfl, ?_, ?_⟩
  · simp [defendOnload, defend]
  · simp [defendOnload, defend, dungeonFetches, List.filter_append,
      defendRequest, getdungeonRequest]

/-! ### Inventory controller (src/unnamed/part_000) -/

/-- The part of the page state the inventory completion handlers touch:
how many full page reloads have been requested via location.reload(). -/
structure InvPageState where
  reloads : Nat
deriving DecidableEq, Repr

/-- The onload of sellItem (part_000 lines 11-13): location.reload(),
with no inspection of the response status. -/
def sellItemOnload (_status : Nat) (p : InvPageState) : InvPageState :=
  { p with reloads := p.reloads + 1 }

/-- The onload of buyItem (part_000 lines 28-30): location.reload(),
with no inspection of the response status. -/
def buyItemOnload (_status : Nat) (p : InvPageState) : InvPageState :=
  { p with reloads := p.reloads + 1 }

/-- The onload of equipItem (part_000 lines 43-45): location.reload(),
with no inspection of the response status. -/
def equipItemOnload (_status : Nat) (p : InvPageState) : InvPageState :=
  { p with reloads := p.reloads + 1 }

/-- The onload of unequipItem (part_000 lines 58-60): location.reload(),
with no inspection of the response status. -/
def unequipItemOnload (_status : Nat) (p : InvPageState) : InvPageState :=
  { p with reloads := p.reloads + 1 }

/-- The onload of moveToVault (part_000 lines 69-71): location.reload(),
with no inspection of the response status. -/
def moveToVaultOnload (_status : Nat) (p : InvPageState) : InvPageState :=
  { p with reloads := p.reloads + 1 }

/-- The onload of moveToInv (part_000 lines 79-81): location.reload(),
with no inspection of the response status. -/
def moveToInvOnload (_status : Nat) (p : InvPageState) : InvPageState :=
  { p with reloads := p.reloads + 1 }

/-! ### Claim C10 -/

/-- C10: every implemented inventory mutation's completion handler
requests exactly one full page reload on any completed response, and the
effect is identical for every response status — in particular a
non-success status (say 500) produces the same full resync as a 200,
since none of the six handlers discriminates on status. -/
theorem inventory_reload_ignores_status (status : Nat) (p : InvPageState) :
    (sellItemOnload status p).reloads = p.reloads + 1 ∧
    (buyItemOnload status p).reloads = p.reloads + 1 ∧
    (equipItemOnload status p).reloads = p.reloads + 1 ∧
    (unequipItemOnload status p).reloads = p.reloads + 1 ∧
    (moveToVaultOnload status p).reloads = p.reloads + 1 ∧
    (moveToInvOnload status p).reloads = p.reloads + 1 ∧
    sellItemOnload status p = sellItemOnload 200 p ∧
    buyItemOnload status p = buyItemOnload 200 p ∧
    equipItemOnload status p = equipItemOnload 200 p ∧
    unequipItemOnload status p = unequipItemOnload 200 p ∧
    moveToVaultOnload status p = moveToVaultOnload 200 p ∧
    moveToInvOnload status p = moveToInvOnload 200 p :=
  ⟨rfl, rfl, rfl, rfl, rfl, rfl, rfl, rfl, rfl, rfl, rfl, rfl⟩

end HeroesNeverDice
